import Mathlib

/-!
Shallow embedding of the Stoxxo-Script order pipeline, covering
`models.py`, `adapters.py`, `order_processor.py` and `log_listner.py`
under `Order_Processor/core`.

Python runtime conventions used throughout:
* `OrderObj.quantity` is declared with type `str` in `models.py`; the
  pydantic v1 model coerces the integer built by the parser back to a
  string, and the repository test suite asserts that a parsed order holds
  the quantity string `"50"` rather than the number 50.  The embedding
  therefore carries `quantity` as a `String`, and the Python product of a
  string and an integer — sequence repetition — is modelled by
  `pyStrMul`.
* The Python `int` conversion on a digit string is modelled by
  `pyToNat`, returning `none` where `int` would raise, which feeds
  the adapters `except` paths.
* Mutable objects are modelled by explicit state passing; `datetime`
  values are modelled as integer milliseconds.
-/

namespace Stoxxo

/-- Order lifecycle states, from `models.OrderStatus`. -/
inductive OrderStatus where
  | pending
  | sent
  | failed
  | skipped
deriving DecidableEq, Repr

/-- Python values that appear in the Tradetron payload dict: the numbered
`keyN` entries hold strings, `valueN` entries hold order fields (strings)
or the integer signal value, and the `auth-token` placeholder starts as
`None`. -/
inductive PyVal where
  | str (s : String)
  | int (n : Int)
  | none
deriving DecidableEq, Repr

/-- Python `str(value)` for the payload values (only the `str` case is ever
scrutinised by the adapter, when it tests whether str(value) contains
the marker `_Quantity_`). -/
def PyVal.toStr : PyVal → String
  | .str s => s
  | .int n => toString n
  | .none => "None"

/-- Python string repetition `s * n` (sequence repetition: `"75" * 3 =
"757575"`). -/
def pyStrMul (s : String) (n : Nat) : String :=
  String.join (List.replicate n s)

/-- Python startswith: the characters of `pre` lead those of `s`. -/
def pyStartsWith (s pre : String) : Bool :=
  pre.data.isPrefixOf s.data

/-- Python int conversion of a plain digit string: `some` of its value,
`none` (the ValueError path) when the string is empty or holds a
non-digit.  Signs, whitespace and underscores never occur in the strings
this code base converts. -/
def pyToNat (s : String) : Option Nat :=
  if s.data ≠ [] ∧ s.data.all Char.isDigit then
    some (s.data.foldl (fun a c => a * 10 + (c.toNat - 48)) 0)
  else
    none

/-- Scan a character list for an occurrence of `nd` as a contiguous block. -/
def listHasInfix (nd : List Char) : List Char → Bool
  | [] => nd.isEmpty
  | c :: cs => nd.isPrefixOf (c :: cs) || listHasInfix nd cs

/-- Python `needle in haystack` on strings (substring containment). -/
def pyStrContains (haystack needle : String) : Bool :=
  listHasInfix needle.data haystack.data

/-- Left-to-right, non-overlapping replacement of the pattern `p :: ps` by
`rep` in a character list, as the Python str.replace method does.  The
fuel argument (instantiated with the list length, which bounds the number
of steps) keeps the recursion structural. -/
def pyReplaceAux (p : Char) (ps rep : List Char) : Nat → List Char → List Char
  | 0, l => l
  | _ + 1, [] => []
  | fuel + 1, c :: cs =>
    if (p :: ps).isPrefixOf (c :: cs) then
      rep ++ pyReplaceAux p ps rep fuel (cs.drop ps.length)
    else
      c :: pyReplaceAux p ps rep fuel cs

/-- Python `s.replace(pat, rep)` (all non-overlapping occurrences, scanning
left to right; the empty pattern, which Python treats specially, never
occurs in this code base). -/
def pyReplace (s pat rep : String) : String :=
  match pat.data with
  | [] => s
  | p :: ps => ⟨pyReplaceAux p ps rep.data s.data.length s.data⟩

/-! ### `models.OrderObj.update_object` (C10)

`update_object` walks the update dict; for each key it checks
`hasattr(self, key)` and either `setattr`s or raises `AttributeError`.
The object is modelled as a total valuation `String → α` of its
attributes, with the field set of the pydantic model listed explicitly; the
in-place mutation plus `return self` becomes returning the updated
valuation. -/

/-- The declared fields of `models.OrderObj` (the attribute names an
update dictionary may legitimately target). -/
def orderObjFields : List String :=
  ["order_id", "strategy_tag", "index", "strike", "quantity", "expiry",
   "order_type", "exchange", "product", "option_type", "actual_time",
   "parse_time", "stoxxo_order", "monthly_expiry", "mapped_order",
   "adapter_name", "processing_gap", "sent_time", "pipeline_latency",
   "end_to_end_latency", "status", "error_message"]

/-- `OrderObj.update_object`: iterate over the items of the update dictionary;
set each attribute that exists, raise `AttributeError` at the first key
that is not an attribute of the object. -/
def updateObject {α : Type} (o : String → α) : List (String × α) → Except String (String → α)
  | [] => .ok o
  | (k, v) :: rest =>
    if k ∈ orderObjFields then
      updateObject (fun k' => if k' = k then v else o k') rest
    else
      .error (k ++ " is not a valid attribute of OrderObj")

/-! ### `order_processor.OrderProcessor.add_order` (C5)

`add_order` does `await self.order_queue.put(batch)` on an
`asyncio.Queue(maxsize=max_queue_size)`.  `Queue.put` suspends the caller
while the queue is full (it never raises `asyncio.QueueFull`; only
`put_nowait` does), so the `except asyncio.QueueFull` drop-and-warn
branch in `add_order` is unreachable.  The one-step outcome of the call
is modelled explicitly. -/

/-- One-step outcome of `add_order` on a queue holding `q` with capacity
`maxsize`: `enqueued` when the put completes immediately, `waits` when
`Queue.put` suspends until space frees up (asyncio treats `maxsize = 0`
as unbounded). -/
inductive PutOutcome (α : Type) where
  | enqueued (q : List α)
  | waits
deriving DecidableEq, Repr

/-- `OrderProcessor.add_order(batch)`: a blocking `await queue.put(batch)`. -/
def addOrder {α : Type} (maxsize : Nat) (q : List α) (batch : α) : PutOutcome α :=
  if maxsize = 0 ∨ q.length < maxsize then .enqueued (q ++ [batch]) else .waits

/-- Outcome of the enqueue as the claim (spec §4.3) describes it. -/
inductive ClaimedPutOutcome (α : Type) where
  | enqueued (q : List α)
  | dropped (q : List α)
deriving DecidableEq, Repr

/-- Modelled from the spec: the non-blocking enqueue the claim describes
for `add_order` — on a full queue the batch is dropped with a warning and
the queue is left unchanged. -/
def addOrderClaimed {α : Type} (maxsize : Nat) (q : List α) (batch : α) : ClaimedPutOutcome α :=
  if maxsize = 0 ∨ q.length < maxsize then .enqueued (q ++ [batch]) else .dropped q

/-! ### `log_listner.OrderParser._parse_datetime` and `processing_gap` (C4)

`_parse_datetime` places the `HH:MM:SS:mmm` timestamp on the current date,
subtracts a day if the result is after `now`, and adds a day if it trails
`now` by more than 12 hours.  `process_log_line` then sets
`processing_gap = parse_time - actual_time` in milliseconds.  Times are
modelled as milliseconds-of-day relative to the current midnight (both the
timestamp and `now` fall on the same calendar day, so the day origin
cancels); the wall clock is read once, so `parse_time = now`. -/

/-- Milliseconds-of-day denoted by the `HH:MM:SS:mmm` components. -/
def timeOfDayMs (hh mm ss ms : Nat) : Nat :=
  hh * 3600000 + mm * 60000 + ss * 1000 + ms

/-- `OrderParser._parse_datetime`: the reconciled `actual_time`, in
milliseconds relative to the current midnight (`t` = parsed time-of-day,
`now` = wall-clock time-of-day). -/
def parseDatetimeMs (t now : Nat) : Int :=
  if (t : Int) > (now : Int) then
    (t : Int) - 86400000
  else if (now : Int) - (t : Int) > 43200000 then
    (t : Int) + 86400000
  else
    (t : Int)

/-- `processing_gap` computed by `OrderParser.process_log_line`:
`parse_time - actual_time` in milliseconds. -/
def processingGapMs (t now : Nat) : Int :=
  (now : Int) - parseDatetimeMs t now

/-! ### `adapters.AsyncFixedWindowRateLimiter.acquire` (C7)

One pass of the `while True` body of `acquire`, executed under the lock:
roll the window when `period` has elapsed (or initialize it on first
use), charge when `count + tokens ≤ limit`, otherwise compute the wait
until the window ends, release the lock and sleep.  The `tokens > limit`
guard raises `ValueError` before the loop. -/

/-- Mutable state of the rate limiter (`current_count`, `window_start`). -/
structure RateLimiterState where
  currentCount : Nat
  windowStart : Option Nat
deriving DecidableEq, Repr

/-- Result of one locked pass of `acquire`. -/
inductive AcquireOutcome where
  /-- `tokens > limit`: `ValueError` raised, nothing charged. -/
  | raises
  /-- Tokens charged; `acquire` returns with the new state. -/
  | granted (s : RateLimiterState)
  /-- Window exhausted: lock released, sleep `waitTime`, then retry. -/
  | sleeps (waitTime : Nat) (s : RateLimiterState)
deriving DecidableEq, Repr

/-- `AsyncFixedWindowRateLimiter.acquire(tokens)` at wall-clock `now`:
the `ValueError` guard plus one pass of the acquisition loop. -/
def acquireAttempt (limit period : Nat) (s : RateLimiterState) (tokens now : Nat) :
    AcquireOutcome :=
  if limit < tokens then .raises
  else
    let ws := s.windowStart.getD now
    let rolled := period ≤ now - ws
    let ws2 := if rolled then now else ws
    let count := if rolled then 0 else s.currentCount
    if count + tokens ≤ limit then
      .granted ⟨count + tokens, some ws2⟩
    else
      .sleeps (period - (now - ws2)) ⟨count, some ws2⟩

/-! ### `adapters.TradetronAdapter.get_global_count` (C9)

The rotating per-condition slot counter: `counter = map.get(condition, 0)`;
if `counter >= counter_size` store and return `1`, else store and return
`counter + 1`.  The `global_conditions_map` dict is modelled as a total
function with default `0` for unseen conditions. -/

/-- `TradetronAdapter.get_global_count(condition)`: returns the slot
number and the updated `global_conditions_map`. -/
def getGlobalCount (counterSize : Nat) (m : String → Nat) (cond : String) :
    Nat × (String → Nat) :=
  let counter := m cond
  if counterSize ≤ counter then
    (1, fun k => if k = cond then 1 else m k)
  else
    (counter + 1, fun k => if k = cond then counter + 1 else m k)

/-- `N` successive `get_global_count` lookups of the same condition:
returns the value of the last lookup (`none` when `N = 0`), the number of
times the counter was reset (the `counter >= counter_size` branch), and
the final map. -/
def lookupN (counterSize : Nat) (cond : String) (m : String → Nat) :
    Nat → Option Nat × Nat × (String → Nat)
  | 0 => (none, 0, m)
  | n + 1 =>
    let prev := lookupN counterSize cond m n
    let g := getGlobalCount counterSize prev.2.2 cond
    (some g.1, prev.2.1 + (if counterSize ≤ prev.2.2 cond then 1 else 0), g.2)

/-! ### Webhook configuration (`cache_manager.WebhookConfig`) -/

/-- `WebhookConfig` dataclass: destination `url` and integer quantity
`multiplier` (default 1). -/
structure WebhookConfig where
  url : String
  multiplier : Nat
deriving DecidableEq, Repr

/-! ### `adapters.TradetronAdapter.map_order_batch` (C2)

The grouped payload is an insertion-ordered dict, modelled as an
association list `List (String × PyVal)`; updating an existing key keeps
its position, exactly as a Python dict does. -/

/-- The order fields `map_order_batch` reads.  `quantity`, `strike` and
`expiry` are the strings held by the pydantic model at runtime. -/
structure TTOrder where
  index : String
  isBuy : Bool
  isCE : Bool
  quantity : String
  strike : String
  expiry : String
deriving DecidableEq, Repr

/-- `order.order_type.value` (`"BUY"` or `"SELL"`). -/
def TTOrder.sideValue (o : TTOrder) : String := if o.isBuy then "BUY" else "SELL"

/-- The option marker: CE when option_type.value is 1, else PE. -/
def TTOrder.opt (o : TTOrder) : String := if o.isCE then "CE" else "PE"

/-- The capitalised side string buy_sell_cap: Buy for a BUY order, else Sell. -/
def TTOrder.buySellCap (o : TTOrder) : String := if o.isBuy then "Buy" else "Sell"

/-- The condition key: index, side value and option marker joined by
underscores. -/
def TTOrder.condition (o : TTOrder) : String :=
  o.index ++ "_" ++ o.sideValue ++ "_" ++ o.opt

/-- The per-order loop of `map_order_batch`: for each order advance the
slot counter and append the four `key{i}/value{i}` pairs (condition →
signal value `R`, quantity, strike, expiry), numbering keys from
`keyIdx`.  Returns the appended entries and the updated counter map. -/
def ttBuildEntries (counterSize : Nat) (R : Int) (m : String → Nat) (keyIdx : Nat) :
    List TTOrder → List (String × PyVal) × (String → Nat)
  | [] => ([], m)
  | o :: rest =>
    let cond := o.condition
    let (condNum, m') := getGlobalCount counterSize m cond
    let entries : List (String × PyVal) :=
      [("key" ++ toString keyIdx, .str (cond ++ toString condNum)),
       ("value" ++ toString keyIdx, .int R),
       ("key" ++ toString (keyIdx + 1),
        .str (o.index ++ "_Quantity_" ++ o.opt ++ "_" ++ o.buySellCap ++ toString condNum)),
       ("value" ++ toString (keyIdx + 1), .str o.quantity),
       ("key" ++ toString (keyIdx + 2),
        .str (o.index ++ "_Strike_" ++ o.opt ++ "_" ++ o.buySellCap ++ toString condNum)),
       ("value" ++ toString (keyIdx + 2), .str o.strike),
       ("key" ++ toString (keyIdx + 3),
        .str (o.index ++ "_Expiry_" ++ o.opt ++ "_" ++ o.buySellCap ++ toString condNum)),
       ("value" ++ toString (keyIdx + 3), .str o.expiry)]
    let (restEntries, m'') := ttBuildEntries counterSize R m' (keyIdx + 4) rest
    (entries ++ restEntries, m'')

/-- Dict lookup `d[k]` on the ordered payload. -/
def payloadGet (p : List (String × PyVal)) (k : String) : Option PyVal :=
  (p.find? (fun e => e.1 = k)).map (fun e => e.2)

/-- Dict update `d[k] = v` for a key already present: the entry keeps its
position. -/
def payloadSet (p : List (String × PyVal)) (k : String) (v : PyVal) :
    List (String × PyVal) :=
  p.map (fun e => if e.1 = k then (e.1, v) else e)

/-- Python `int(value * multiplier)`: integer values multiply
arithmetically, string values repeat (`str * int`) and are then parsed by
`int()` (`none` when `int()` would raise). -/
def pyIntTimes (v : PyVal) (mult : Nat) : Option PyVal :=
  match v with
  | .int n => some (.int (n * (mult : Int)))
  | .str s => (pyToNat (pyStrMul s mult)).map (fun n => .int (n : Int))
  | .none => Option.none

/-- The per-webhook multiplier loop of `map_order_batch`: iterate over the
keys of the dict; for every keyN entry whose value string contains
`_Quantity_`, replace the matching `value*` entry by
`int(value * multiplier)`.  Only `value*` entries are ever written, so
iterating over the initial key list while reading the current payload is
exactly the live-dict iteration of Python.  `none` models the int
conversion raising
(which `map_order_batch` re-raises). -/
def ttApplyMultiplierGo (mult : Nat) :
    List String → List (String × PyVal) → Option (List (String × PyVal))
  | [], p => some p
  | k :: ks, p =>
    let v := (payloadGet p k).getD .none
    if pyStartsWith k "key" && pyStrContains v.toStr "_Quantity_" then
      let vk := pyReplace k "key" "value"
      match payloadGet p vk with
      | some vv =>
        match pyIntTimes vv mult with
        | some nv => ttApplyMultiplierGo mult ks (payloadSet p vk nv)
        | Option.none => Option.none
      | Option.none => ttApplyMultiplierGo mult ks p
    else
      ttApplyMultiplierGo mult ks p

/-- Apply the multiplier of one webhook to a cloned payload. -/
def ttApplyMultiplier (mult : Nat) (p : List (String × PyVal)) :
    Option (List (String × PyVal)) :=
  ttApplyMultiplierGo mult (p.map (fun e => e.1)) p

/-- `TradetronAdapter.map_order_batch(orders)` for a drawn signal value
`R` (`random.randint(1, 10000)`) and counter map `m`: build the grouped
payload (`auth-token` placeholder first, then the numbered pairs), then
for each webhook config clone it, set `auth-token` to the webhook url and
apply its multiplier.  Errors model the raising paths (empty webhook
list, `int()` failure); an empty batch returns no mappings. -/
def ttMapOrderBatch (counterSize : Nat) (R : Int) (baseUrl : String)
    (webhooks : List WebhookConfig) (m : String → Nat) (orders : List TTOrder) :
    Except String (List (List (String × PyVal)) × String) :=
  match orders with
  | [] => .error "No orders to map"
  | _ :: _ =>
    if webhooks.isEmpty then .error "No token found for strategy"
    else
      let (entries, _) := ttBuildEntries counterSize R m 1 orders
      let payload : List (String × PyVal) := ("auth-token", PyVal.none) :: entries
      match webhooks.mapM (fun wc =>
          ttApplyMultiplier wc.multiplier (payloadSet payload "auth-token" (.str wc.url))) with
      | some mapped => .ok (mapped, baseUrl)
      | Option.none => .error "Error mapping order batch for Tradetron"

/-! ### `adapters.AlgotestAdapter.map_order` (C1) -/

/-- The order fields `AlgotestAdapter.map_order` reads (`quantity` and
`strike` are runtime strings, see the module comment). -/
structure AlgoOrder where
  index : String
  strike : String
  quantity : String
  expiry : String
  sideValue : String
  isCE : Bool
deriving DecidableEq, Repr

/-- The compact expiry: drop the dashes of `YYYY-MM-DD` and
keep the last six characters. -/
def algotestExpiryCompact (expiry : String) : String :=
  let l := (pyReplace expiry "-" "").data
  ⟨l.drop (l.length - 6)⟩

/-- The instrument string: index, compact expiry, C or P, strike. -/
def algotestInstrument (o : AlgoOrder) : String :=
  o.index ++ algotestExpiryCompact o.expiry ++ (if o.isCE then "C" else "P") ++ o.strike

/-- `AlgotestAdapter.map_order(order)` given the cached webhook configs
and lot size: for each webhook compute
`quantity = int(order.quantity * multiplier)` (string repetition then
`int()`), `lot = quantity // lot_size`, and emit
the payload dict (with its single payload field holding the symbol
string, carried here as the string itself) paired with the webhook url.
Errors model the `except`/`raise ValueError` path (`int()` failure,
division by a zero lot size). -/
def algotestMapOrder (o : AlgoOrder) (webhooks : List WebhookConfig) (lotSize : Nat) :
    Except String (List (String × String)) :=
  if webhooks.isEmpty then .error "No token found for strategy"
  else
    let instrument := algotestInstrument o
    match webhooks.mapM (fun wc =>
        match pyToNat (pyStrMul o.quantity wc.multiplier) with
        | some q =>
          if lotSize = 0 then Option.none
          else some (instrument ++ " " ++ o.sideValue ++ " " ++ toString (q / lotSize), wc.url)
        | Option.none => Option.none) with
    | some mapped => .ok mapped
    | Option.none => .error ("Error calculating lots for index " ++ o.index)

/-! ### HTTP send with retry (C6)

`BaseAdapter._send_mapped_order` and `_send_batch_mapped_order` run a
`while retry_count <= max_retries` loop with the literal
`max_retries = 1`, so each call makes at most two HTTP attempts.  The
network behaviour on attempt `i` is a parameter `attempt i`; the
`Retry-After` header is carried as the already-parsed integer
(the int conversion of the Retry-After header, defaulting to 1). -/

/-- What one HTTP attempt yields: a response with status code, optional
`Retry-After` value and body text, an `httpx.TimeoutException`, an
`httpx.RequestError`, or any other exception. -/
inductive HttpAttempt where
  | response (statusCode : Nat) (retryAfter : Option Nat) (body : String)
  | timeout
  | requestError (msg : String)
  | unexpected (msg : String)
deriving DecidableEq, Repr

/-- Result of a `(payload, url)` send: final order status and error
message, number of HTTP attempts made, and total seconds slept on 429
backoff. -/
structure SendResult where
  status : OrderStatus
  error : Option String
  attempts : Nat
  sleptSeconds : Nat
deriving DecidableEq, Repr

/-- The loop body at `retry_count = max_retries` (the final attempt,
shared by both send functions): every branch returns. -/
def sendFinalAttempt (a : HttpAttempt) : OrderStatus × Option String :=
  match a with
  | .response code _ body =>
    if code = 200 then (.sent, Option.none)
    else if code = 429 then (.failed, some "Rate limit exceeded")
    else if 500 ≤ code then (.failed, some ("Server error: " ++ toString code))
    else (.failed, some ("HTTP " ++ toString code ++ ": " ++ body))
  | .timeout => (.failed, some "Request timeout")
  | .requestError msg => (.failed, some msg)
  | .unexpected msg => (.failed, some msg)

/-- `BaseAdapter._send_mapped_order`: first loop pass at
`retry_count = 0`, which either returns or retries once (429 sleeps
`Retry-After` seconds first, default 1; 5xx and timeout retry
immediately; transport and unexpected errors return at once). -/
def sendMappedOrder (attempt : Nat → HttpAttempt) : SendResult :=
  match attempt 0 with
  | .response code retryAfter body =>
    if code = 200 then ⟨.sent, Option.none, 1, 0⟩
    else if code = 429 then
      let wait := retryAfter.getD 1
      let r := sendFinalAttempt (attempt 1)
      ⟨r.1, r.2, 2, wait⟩
    else if 500 ≤ code then
      let r := sendFinalAttempt (attempt 1)
      ⟨r.1, r.2, 2, 0⟩
    else ⟨.failed, some ("HTTP " ++ toString code ++ ": " ++ body), 1, 0⟩
  | .timeout =>
    let r := sendFinalAttempt (attempt 1)
    ⟨r.1, r.2, 2, 0⟩
  | .requestError msg => ⟨.failed, some msg, 1, 0⟩
  | .unexpected msg => ⟨.failed, some msg, 1, 0⟩

/-- `BaseAdapter._send_batch_mapped_order`: same retry discipline as the
per-order send (its loop differs only in exiting via `break` with the
recorded `last_error`, which names the same status and message in every
reachable case). -/
def sendBatchMappedOrder (attempt : Nat → HttpAttempt) : SendResult :=
  match attempt 0 with
  | .response code retryAfter body =>
    if code = 200 then ⟨.sent, Option.none, 1, 0⟩
    else if code = 429 then
      let wait := retryAfter.getD 1
      let r := sendFinalAttempt (attempt 1)
      ⟨r.1, r.2, 2, wait⟩
    else if 500 ≤ code then
      let r := sendFinalAttempt (attempt 1)
      ⟨r.1, r.2, 2, 0⟩
    else ⟨.failed, some ("HTTP " ++ toString code ++ ": " ++ body), 1, 0⟩
  | .timeout =>
    let r := sendFinalAttempt (attempt 1)
    ⟨r.1, r.2, 2, 0⟩
  | .requestError msg => ⟨.failed, some msg, 1, 0⟩
  | .unexpected msg => ⟨.failed, some msg, 1, 0⟩

/-! ### Grouped-batch status aggregation (C3)

`_process_grouped_orders` gathers the per-webhook send results
(exceptions included) and computes a single success flag; it then calls
`_mark_batch_success` or `_mark_batch_failed`, each of which runs
`update_object` on `batch[0]` **only**.  Orders are modelled by the two
fields the marking functions touch that the claim is about. -/

/-- The slice of an `OrderObj` the grouped-mode marking writes. -/
structure GOrder where
  status : OrderStatus
  sentTime : Option Nat
deriving DecidableEq, Repr

/-- The result-scanning loop of `_process_grouped_orders`: the batch
counts as a success iff no gathered result is an exception, a `FAILED`
tuple, or an unexpected value (the result type of the embedding has no
unexpected-shape case). -/
def aggregateBatchSuccess (results : List (Except String (OrderStatus × Option String))) :
    Bool :=
  results.all (fun r =>
    match r with
    | .ok (s, _) => !(s = OrderStatus.failed)
    | .error _ => false)

/-- `BaseAdapter._mark_batch_success`: `batch[0].update_object({status:
SENT, sent_time: now, ...})` — only the first order is written. -/
def markBatchSuccess (now : Nat) : List GOrder → List GOrder
  | [] => []
  | _ :: rest => ⟨.sent, some now⟩ :: rest

/-- `BaseAdapter._mark_batch_failed`: `batch[0].update_object({status:
FAILED, sent_time: None, ...})` — only the first order is written. -/
def markBatchFailed : List GOrder → List GOrder
  | [] => []
  | _ :: rest => ⟨.failed, Option.none⟩ :: rest

/-- The status outcome of one grouped dispatch: aggregate the gathered
send results and mark the batch accordingly. -/
def processGroupedBatch (batch : List GOrder)
    (results : List (Except String (OrderStatus × Option String))) (now : Nat) :
    List GOrder :=
  if aggregateBatchSuccess results then markBatchSuccess now batch
  else markBatchFailed batch

/-! ### Per-order status update and log record (C8)

`_process_single_order` counts the successful webhook sends, picks the
final `(status, error_message, sent_time)` triple and writes it through
`update_object`; the update dictionary does **not** contain
`pipeline_latency` or `end_to_end_latency`, so those fields keep their
previous (`None`) values.  `dump_data_to_log` then computes both
latencies from `sent_time` into the emitted structured record. -/

/-- The slice of an `OrderObj` that `_process_single_order` and
`dump_data_to_log` read or write (times in milliseconds). -/
structure POrder where
  status : OrderStatus
  sentTime : Option Int
  actualTime : Int
  parseTime : Int
  pipelineLatency : Option Int
  endToEndLatency : Option Int
  errorMessage : Option String
deriving DecidableEq, Repr

/-- The result loop of `_process_single_order`: count sends that returned
`SENT` and collect error strings (exception text, or the error of a
tuple when
present). -/
def countSendResults (results : List (Except String (OrderStatus × Option String))) :
    Nat × List String :=
  results.foldl
    (fun acc r =>
      match r with
      | .error e => (acc.1, acc.2 ++ [e])
      | .ok (s, err) =>
        if s = OrderStatus.sent then (acc.1 + 1, acc.2)
        else
          match err with
          | some e => (acc.1, acc.2 ++ [e])
          | Option.none => acc)
    (0, [])

/-- The final update of `_process_single_order`: all sends succeeded → `SENT`
with `sent_time = now`; otherwise `FAILED` with a partial- or
total-failure message and `sent_time = None`.  Applied through
`update_object`, which leaves the latency fields untouched. -/
def processSingleOrderUpdate (o : POrder)
    (results : List (Except String (OrderStatus × Option String))) (now : Int) : POrder :=
  let successful := (countSendResults results).1
  let joined := String.intercalate "; " (countSendResults results).2
  if successful = results.length then
    { o with status := .sent, errorMessage := Option.none, sentTime := some now }
  else if 0 < successful then
    { o with status := .failed,
             errorMessage := some ("Sent to " ++ toString successful ++ "/" ++
               toString results.length ++ " URLs. Errors: " ++ joined),
             sentTime := Option.none }
  else
    { o with status := .failed,
             errorMessage := some ("Failed to send to all URLs. Errors: " ++ joined),
             sentTime := Option.none }

/-- The latency pair of the structured record built by
`OrderObj.dump_data_to_log`: `(end_to_end_latency, pipeline_latency)`,
computed from `sent_time` when it is set and `None` otherwise. -/
def dumpRecordLatencies (o : POrder) : Option Int × Option Int :=
  match o.sentTime with
  | some t => (some (t - o.actualTime), some (t - o.parseTime))
  | Option.none => (Option.none, Option.none)

/-! ## Theorems -/

/-- Claim C1: for the scenario order (quantity 150, multiplier 2, NIFTY
lot size 75, expiry 2025-10-16, strike 25000, CE, BUY) the claim expects
the payload body to read NIFTY251016C25000 BUY 4.  The code instead
repeats the quantity string (the quantity field is a Python str), so
`int` sees 150150 and the emitted lot count is 150150 // 75 = 2002: the
payload body reads NIFTY251016C25000 BUY 2002, not BUY 4. -/
theorem algotest_map_order_string_repetition :
    algotestMapOrder ⟨"NIFTY", "25000", "150", "2025-10-16", "BUY", true⟩ [⟨"U", 2⟩] 75
      = .ok [("NIFTY251016C25000 BUY 2002", "U")] ∧
    ("NIFTY251016C25000 BUY 2002" : String) ≠ "NIFTY251016C25000 BUY 4" := by
  constructor
  · rfl
  · decide

/-- Claim C2: for the scenario batch (two NIFTY BUY CE orders of quantity
75, counter size 3, one webhook with multiplier 3, signal value R = 42)
the claim expects value2 = value6 = 225.  The code stamps R into value1
and value5 and numbers the four per-order pairs as claimed, but the
multiplier stage repeats the quantity string 75 three times before the
`int` conversion, so value2 = value6 = 757575, not 225. -/
theorem tradetron_map_order_batch_string_repetition :
    ttMapOrderBatch 3 42 "B" [⟨"V", 3⟩] (fun _ => 0)
        [⟨"NIFTY", true, true, "75", "25000", "2025-10-16"⟩,
         ⟨"NIFTY", true, true, "75", "25100", "2025-10-16"⟩]
      = .ok ([[("auth-token", .str "V"),
               ("key1", .str "NIFTY_BUY_CE1"), ("value1", .int 42),
               ("key2", .str "NIFTY_Quantity_CE_Buy1"), ("value2", .int 757575),
               ("key3", .str "NIFTY_Strike_CE_Buy1"), ("value3", .str "25000"),
               ("key4", .str "NIFTY_Expiry_CE_Buy1"), ("value4", .str "2025-10-16"),
               ("key5", .str "NIFTY_BUY_CE2"), ("value5", .int 42),
               ("key6", .str "NIFTY_Quantity_CE_Buy2"), ("value6", .int 757575),
               ("key7", .str "NIFTY_Strike_CE_Buy2"), ("value7", .str "25100"),
               ("key8", .str "NIFTY_Expiry_CE_Buy2"), ("value8", .str "2025-10-16")]],
             "B") ∧
    (PyVal.int 757575 : PyVal) ≠ .int 225 := by
  constructor
  · rfl
  · decide

/-- Claim C5: offering a batch to a full order queue (capacity 1, one
batch already queued).  The claim says the enqueue is non-blocking and
the batch is dropped; `add_order` instead performs an awaiting
`queue.put`, which suspends until space frees — the modelled spec
behaviour and the code behaviour disagree at this input. -/
theorem add_order_blocks_on_full_queue :
    addOrder 1 [(0 : Nat)] 1 = PutOutcome.waits ∧
    addOrderClaimed 1 [(0 : Nat)] 1 = ClaimedPutOutcome.dropped [0] := by
  decide

/-- Claim C4, counterexample: a log line stamped 01:00:00:000 parsed at
23:00:00.000 trails the wall clock by 22 hours, so the add-one-day branch
fires and places `actual_time` two hours in the future; the computed
`processing_gap` is −7,200,000 ms, violating the claimed lower bound of
0. -/
theorem processing_gap_negative_counterexample :
    processingGapMs (timeOfDayMs 1 0 0 0) (timeOfDayMs 23 0 0 0) = -7200000 ∧
    ¬ (0 ≤ processingGapMs (timeOfDayMs 1 0 0 0) (timeOfDayMs 23 0 0 0)) := by
  decide

/-- Claim C4 (amended): for every well-formed HH:MM:SS:mmm timestamp and
every wall-clock time of day, the computed `processing_gap` satisfies
−43,200,000 < gap < 86,400,000; the reconciliation rule keeps the gap
under 24 hours but its add-one-day branch can push `actual_time` up to
12 hours into the future, making the gap negative. -/
theorem processing_gap_bounds (hh mm ss ms now : Nat)
    (hhh : hh < 24) (hmm : mm < 60) (hss : ss < 60) (hms : ms < 1000)
    (hnow : now < 86400000) :
    -43200000 < processingGapMs (timeOfDayMs hh mm ss ms) now ∧
    processingGapMs (timeOfDayMs hh mm ss ms) now < 86400000 := by
  unfold processingGapMs parseDatetimeMs timeOfDayMs
  split_ifs <;> omega

/-- Witness for `processing_gap_bounds` at the scenario timestamp
10:29:59:900 read at 10:30:00.000. -/
theorem processing_gap_bounds_witness :
    -43200000 < processingGapMs (timeOfDayMs 10 29 59 900) 37800000 ∧
    processingGapMs (timeOfDayMs 10 29 59 900) 37800000 < 86400000 :=
  processing_gap_bounds 10 29 59 900 37800000 (by decide) (by decide) (by decide)
    (by decide) (by decide)

/-- Claim C3, counterexample: a grouped batch of two PENDING orders whose
single webhook send succeeds.  `_mark_batch_success` updates only the
first order, so the final statuses are SENT and PENDING — the orders do
not share one final status, and the second order sits in a status the
claim excludes. -/
theorem grouped_batch_status_counterexample :
    processGroupedBatch [⟨.pending, Option.none⟩, ⟨.pending, Option.none⟩]
        [.ok (.sent, Option.none)] 5
      = [⟨.sent, some 5⟩, ⟨.pending, Option.none⟩] ∧
    (processGroupedBatch [⟨.pending, Option.none⟩, ⟨.pending, Option.none⟩]
        [.ok (.sent, Option.none)] 5).map GOrder.status
      ≠ [OrderStatus.sent, OrderStatus.sent] ∧
    (processGroupedBatch [⟨.pending, Option.none⟩, ⟨.pending, Option.none⟩]
        [.ok (.sent, Option.none)] 5).map GOrder.status
      ≠ [OrderStatus.failed, OrderStatus.failed] := by
  decide

/-- Claim C3 (amended): after a grouped dispatch only the first order of
the batch carries the aggregate status — SENT with a sent time when every
gathered send result succeeded, FAILED otherwise — while every other
order keeps its previous state unchanged. -/
theorem grouped_batch_first_order_status (batch : List GOrder)
    (results : List (Except String (OrderStatus × Option String))) (now : Nat)
    (hne : batch ≠ []) :
    (processGroupedBatch batch results now).head? =
      some (if aggregateBatchSuccess results then ⟨.sent, some now⟩
            else ⟨.failed, Option.none⟩) ∧
    (processGroupedBatch batch results now).tail = batch.tail := by
  match batch with
  | [] => exact absurd rfl hne
  | o :: rest =>
    unfold processGroupedBatch markBatchSuccess markBatchFailed
    split_ifs <;> simp

/-- Witness for `grouped_batch_first_order_status` on a two-order batch
with one successful send. -/
theorem grouped_batch_first_order_status_witness :
    (processGroupedBatch [⟨.pending, Option.none⟩, ⟨.failed, Option.none⟩]
        [.ok (.sent, Option.none)] 7).head? =
      some (if aggregateBatchSuccess [.ok (.sent, Option.none)] then ⟨.sent, some 7⟩
            else ⟨.failed, Option.none⟩) ∧
    (processGroupedBatch [⟨.pending, Option.none⟩, ⟨.failed, Option.none⟩]
        [.ok (.sent, Option.none)] 7).tail = [⟨.failed, Option.none⟩] :=
  grouped_batch_first_order_status [⟨.pending, Option.none⟩, ⟨.failed, Option.none⟩]
    [.ok (.sent, Option.none)] 7 (by decide)

/-- Claim C8, counterexample: an order whose single webhook send succeeds
ends with status SENT, yet its `pipeline_latency` and
`end_to_end_latency` fields still hold None — `_process_single_order`
never writes them; the latencies appear only in the emitted log
record. -/
theorem sent_order_latency_fields_counterexample :
    (processSingleOrderUpdate ⟨.pending, Option.none, 5, 10, Option.none, Option.none,
        Option.none⟩ [.ok (.sent, Option.none)] 20).status = OrderStatus.sent ∧
    (processSingleOrderUpdate ⟨.pending, Option.none, 5, 10, Option.none, Option.none,
        Option.none⟩ [.ok (.sent, Option.none)] 20).pipelineLatency = Option.none ∧
    (processSingleOrderUpdate ⟨.pending, Option.none, 5, 10, Option.none, Option.none,
        Option.none⟩ [.ok (.sent, Option.none)] 20).endToEndLatency = Option.none := by
  decide

/-- Claim C8 (amended): whenever the per-order update leaves an order
SENT, its `sent_time` is set (to the update wall-clock time), and the
structured log record emitted for it carries both latencies computed from
that `sent_time`; the latency fields stored on the order itself are left
exactly as they were (None). -/
theorem sent_implies_latencies_in_log_record (o : POrder)
    (results : List (Except String (OrderStatus × Option String))) (now : Int)
    (h : (processSingleOrderUpdate o results now).status = OrderStatus.sent) :
    (processSingleOrderUpdate o results now).sentTime = some now ∧
    (dumpRecordLatencies (processSingleOrderUpdate o results now)).1 =
      some (now - o.actualTime) ∧
    (dumpRecordLatencies (processSingleOrderUpdate o results now)).2 =
      some (now - o.parseTime) ∧
    (processSingleOrderUpdate o results now).pipelineLatency = o.pipelineLatency ∧
    (processSingleOrderUpdate o results now).endToEndLatency = o.endToEndLatency := by
  unfold processSingleOrderUpdate at h ⊢
  dsimp only at h ⊢
  split_ifs at h ⊢
  simp_all [dumpRecordLatencies]

/-- Witness for `sent_implies_latencies_in_log_record` on an order whose
two webhook sends both succeed. -/
theorem sent_implies_latencies_in_log_record_witness :
    (processSingleOrderUpdate ⟨.pending, Option.none, 5, 10, Option.none, Option.none,
        Option.none⟩ [.ok (.sent, Option.none), .ok (.sent, Option.none)] 20).sentTime
      = some 20 ∧
    (dumpRecordLatencies (processSingleOrderUpdate ⟨.pending, Option.none, 5, 10,
        Option.none, Option.none, Option.none⟩
        [.ok (.sent, Option.none), .ok (.sent, Option.none)] 20)).1 = some 15 ∧
    (dumpRecordLatencies (processSingleOrderUpdate ⟨.pending, Option.none, 5, 10,
        Option.none, Option.none, Option.none⟩
        [.ok (.sent, Option.none), .ok (.sent, Option.none)] 20)).2 = some 10 := by
  have h := sent_implies_latencies_in_log_record
    ⟨.pending, Option.none, 5, 10, Option.none, Option.none, Option.none⟩
    [.ok (.sent, Option.none), .ok (.sent, Option.none)] 20 (by decide)
  exact ⟨h.1, by simpa using h.2.1, by simpa using h.2.2.1⟩

/-- Claim C6: each single (payload, url) send makes at most two HTTP
attempts, both send functions implement the same policy, and the
dispositions are exactly those claimed — 200 returns SENT on the first
attempt; a 429 sleeps the Retry-After value (default 1 s) and retries
once, failing with the rate-limit message when the retry also gets a 429;
a 5xx retries once and fails with the server-error message naming the
retry status; any other HTTP status fails immediately with the status and
body and no retry; a timeout retries once; transport and unexpected
errors fail immediately with no retry. -/
theorem send_retry_policy (attempt : Nat → HttpAttempt) :
    (sendMappedOrder attempt).attempts ≤ 2 ∧
    (sendBatchMappedOrder attempt).attempts ≤ 2 ∧
    sendBatchMappedOrder attempt = sendMappedOrder attempt ∧
    (∀ ra b, attempt 0 = .response 200 ra b →
      sendMappedOrder attempt = ⟨.sent, Option.none, 1, 0⟩) ∧
    (∀ ra b ra2 b2, attempt 0 = .response 429 ra b → attempt 1 = .response 429 ra2 b2 →
      sendMappedOrder attempt = ⟨.failed, some "Rate limit exceeded", 2, ra.getD 1⟩) ∧
    (∀ c ra b c2 ra2 b2, attempt 0 = .response c ra b → 500 ≤ c →
      attempt 1 = .response c2 ra2 b2 → 500 ≤ c2 →
      sendMappedOrder attempt =
        ⟨.failed, some ("Server error: " ++ toString c2), 2, 0⟩) ∧
    (∀ c ra b, attempt 0 = .response c ra b → c ≠ 200 → c ≠ 429 → c < 500 →
      sendMappedOrder attempt =
        ⟨.failed, some ("HTTP " ++ toString c ++ ": " ++ b), 1, 0⟩) ∧
    (attempt 0 = .timeout → (sendMappedOrder attempt).attempts = 2) ∧
    (∀ msg, attempt 0 = .requestError msg →
      sendMappedOrder attempt = ⟨.failed, some msg, 1, 0⟩) ∧
    (∀ msg, attempt 0 = .unexpected msg →
      sendMappedOrder attempt = ⟨.failed, some msg, 1, 0⟩) := by
  refine ⟨?_, ?_, rfl, ?_, ?_, ?_, ?_, ?_, ?_, ?_⟩
  · rcases h : attempt 0 with ⟨c, ra, b⟩ | _ | m | m <;>
      simp only [sendMappedOrder, h] <;> (try split_ifs) <;> simp
  · rcases h : attempt 0 with ⟨c, ra, b⟩ | _ | m | m <;>
      simp only [sendBatchMappedOrder, h] <;> (try split_ifs) <;> simp
  · intro ra b h
    simp [sendMappedOrder, h]
  · intro ra b ra2 b2 h0 h1
    simp [sendMappedOrder, h0, h1, sendFinalAttempt]
  · intro c ra b c2 ra2 b2 h0 hc h1 hc2
    have hne : c ≠ 200 := by omega
    have hne429 : c ≠ 429 := by omega
    have hne2 : c2 ≠ 200 := by omega
    have hne429b : c2 ≠ 429 := by omega
    simp [sendMappedOrder, h0, h1, sendFinalAttempt, hne, hne429, hne2, hne429b, hc, hc2]
  · intro c ra b h0 hne hne429 hlt
    have : ¬ 500 ≤ c := by omega
    simp [sendMappedOrder, h0, hne, hne429, this]
  · intro h0
    simp [sendMappedOrder, h0]
  · intro msg h0
    simp [sendMappedOrder, h0]
  · intro msg h0
    simp [sendMappedOrder, h0]

/-- Witness for `send_retry_policy`: a send that receives 429 with
Retry-After 2 on both attempts fails with the rate-limit message after
two attempts and two seconds of backoff. -/
theorem send_retry_policy_witness :
    sendMappedOrder (fun n => if n = 0 then .response 429 (some 2) "slow down"
        else .response 429 Option.none "slow down")
      = ⟨.failed, some "Rate limit exceeded", 2, 2⟩ := by
  have h := (send_retry_policy (fun n => if n = 0 then .response 429 (some 2) "slow down"
      else .response 429 Option.none "slow down")).2.2.2.2.1
    (some 2) "slow down" Option.none "slow down" rfl rfl
  simpa using h

/-- Claim C7: one locked pass of `acquire` under the state invariant
(count within limit, a zero count while the window is unset, window start
not in the future).  Requesting more than `limit` tokens raises without
charging; a grant keeps the charged count of the current window at most
`limit` (adding to the window count, or starting a fresh window with just
these tokens); an unsatisfiable request leaves the state unchanged and
sleeps exactly until the current window ends before retrying. -/
theorem rate_limiter_acquire_spec (limit period : Nat) (s : RateLimiterState)
    (tokens now : Nat)
    (_hpos : 0 < limit)
    (_hinv : s.currentCount ≤ limit)
    (hinit : s.windowStart = Option.none → s.currentCount = 0)
    (hmono : ∀ w, s.windowStart = some w → w ≤ now) :
    (limit < tokens → acquireAttempt limit period s tokens now = .raises) ∧
    (∀ s2, acquireAttempt limit period s tokens now = .granted s2 →
      s2.currentCount ≤ limit ∧
      ((s2.currentCount = s.currentCount + tokens ∧
        s2.windowStart = some (s.windowStart.getD now)) ∨
       (s2.currentCount = tokens ∧ s2.windowStart = some now))) ∧
    (∀ w s2, acquireAttempt limit period s tokens now = .sleeps w s2 →
      s2.currentCount = s.currentCount ∧
      ∃ ws, s.windowStart = some ws ∧ s2.windowStart = some ws ∧
        now + w = ws + period) := by
  refine ⟨?_, ?_, ?_⟩
  · intro h
    simp [acquireAttempt, h]
  · intro s2 h
    unfold acquireAttempt at h
    dsimp only at h
    split_ifs at h with hlt hroll hcharge hcharge
    · injection h with h2
      subst h2
      refine ⟨?_, Or.inr ⟨?_, rfl⟩⟩
      · show 0 + tokens ≤ limit
        omega
      · show 0 + tokens = tokens
        omega
    · injection h with h2
      subst h2
      exact ⟨hcharge, Or.inl ⟨rfl, rfl⟩⟩
  · intro w s2 h
    unfold acquireAttempt at h
    dsimp only at h
    split_ifs at h with hlt hroll hcharge hcharge
    · omega
    · injection h with h1 h2
      subst h1
      subst h2
      rcases hws : s.windowStart with _ | w0
      · have hzero := hinit hws
        exfalso
        omega
      · have hle := hmono w0 hws
        refine ⟨rfl, w0, rfl, rfl, ?_⟩
        show now + (period - (now - w0)) = w0 + period
        have hroll2 : ¬ period ≤ now - w0 := by
          rw [hws] at hroll
          simpa using hroll
        omega

/-- Witness for `rate_limiter_acquire_spec`: a fresh limiter (limit 2,
period 10) grants a single token at time 0 and stays within its limit. -/
theorem rate_limiter_acquire_spec_witness :
    acquireAttempt 2 10 ⟨0, Option.none⟩ 1 0 = AcquireOutcome.granted ⟨1, some 0⟩ ∧
    (1 : Nat) ≤ 2 := by
  have h := (rate_limiter_acquire_spec 2 10 ⟨0, Option.none⟩ 1 0 (by decide) (by decide)
      (fun _ => rfl) (fun w hw => by simp at hw)).2.1 ⟨1, some 0⟩ (by decide)
  exact ⟨by decide, h.1⟩

/-- A lookup of one condition leaves every other condition untouched. -/
theorem getGlobalCount_frame (size : Nat) (m : String → Nat) (c c2 : String)
    (h : c2 ≠ c) : (getGlobalCount size m c).2 c2 = m c2 := by
  unfold getGlobalCount
  dsimp only
  split_ifs <;> simp [h]

/-- Repeated lookups of one condition leave every other condition
untouched. -/
theorem lookupN_frame (size : Nat) (cond : String) (m : String → Nat) (c2 : String)
    (h : c2 ≠ cond) : ∀ N, (lookupN size cond m N).2.2 c2 = m c2 := by
  intro N
  induction N with
  | zero => rfl
  | succ n ih =>
    unfold lookupN
    dsimp only
    rw [getGlobalCount_frame _ _ _ _ h, ih]

/-- Value, stored counter and reset count after `N ≥ 1` lookups of a
fresh condition: the counter cycles 1, 2, …, size, 1, … and the reset
branch has fired `(N − 1) / size` times. -/
theorem lookupN_val_spec (size : Nat) (cond : String) (m : String → Nat)
    (hsz : 1 ≤ size) (hm : m cond = 0) :
    ∀ N, 1 ≤ N →
      (lookupN size cond m N).1 = some ((N - 1) % size + 1) ∧
      (lookupN size cond m N).2.2 cond = (N - 1) % size + 1 ∧
      (lookupN size cond m N).2.1 = (N - 1) / size := by
  intro N
  induction N with
  | zero => intro h; omega
  | succ n ih =>
    intro _
    by_cases hn : 1 ≤ n
    · obtain ⟨_, hmap, hres⟩ := ih hn
      set q := (n - 1) / size with hqdef
      set b := (n - 1) % size with hbdef
      have hq : size * q + b = n - 1 := Nat.div_add_mod (n - 1) size
      have hblt : b < size := Nat.mod_lt _ (by omega)
      by_cases hcase : size ≤ (lookupN size cond m n).2.2 cond
      · have hbeq : b + 1 = size := by
          rw [hmap] at hcase
          omega
        have hco : size ≤ b + 1 := by omega
        have hne : n = size * q + size := by omega
        have hne2 : n = size * (q + 1) := by
          rw [hne]
          ring
        have hmod : n % size = 0 := by
          rw [hne2]
          exact Nat.mul_mod_right size _
        have hdiv : n / size = q + 1 := by
          rw [hne2]
          exact Nat.mul_div_cancel_left _ (by omega)
        unfold lookupN
        dsimp only
        unfold getGlobalCount
        rw [hmap]
        simp only [if_pos hco]
        refine ⟨?_, ?_, ?_⟩
        · simp [hmod]
        · simp [hmod]
        · rw [hres]
          simp [hdiv]
      · have hlt2 : b + 1 < size := by
          rw [hmap] at hcase
          omega
        have hco : ¬ size ≤ b + 1 := by omega
        have hne : n = size * q + (b + 1) := by omega
        have hmod : n % size = b + 1 := by
          rw [hne, Nat.mul_add_mod]
          exact Nat.mod_eq_of_lt hlt2
        have hdiv : n / size = q := by
          rw [hne, Nat.mul_add_div (by omega : 0 < size)]
          simp [Nat.div_eq_of_lt hlt2]
        unfold lookupN
        dsimp only
        unfold getGlobalCount
        rw [hmap]
        simp only [if_neg hco]
        refine ⟨?_, ?_, ?_⟩
        · simp [hmod]
        · simp [hmod]
        · rw [hres]
          simp [hdiv]
    · have hn0 : n = 0 := by omega
      subst hn0
      have h0 : ¬ size ≤ 0 := by omega
      refine ⟨?_, ?_, ?_⟩ <;> simp [lookupN, getGlobalCount, hm, h0]

/-- Claim C9: after `N ≥ 1` lookups of the same fresh condition on the
rotating slot counter (counter size ≥ 1), the last lookup returned and
the map stores `((N − 1) mod size) + 1`, the reset branch has fired
`⌈N / size⌉ − 1` times, and no other condition is disturbed. -/
theorem rotating_counter_formula (size : Nat) (cond : String) (m : String → Nat)
    (N : Nat) (hsz : 1 ≤ size) (hN : 1 ≤ N) (hm : m cond = 0) :
    (lookupN size cond m N).1 = some ((N - 1) % size + 1) ∧
    (lookupN size cond m N).2.2 cond = (N - 1) % size + 1 ∧
    (lookupN size cond m N).2.1 = (N + size - 1) / size - 1 ∧
    ∀ c2, c2 ≠ cond → (lookupN size cond m N).2.2 c2 = m c2 := by
  obtain ⟨h1, h2, h3⟩ := lookupN_val_spec size cond m hsz hm N hN
  refine ⟨h1, h2, ?_, fun c2 hc2 => lookupN_frame size cond m c2 hc2 N⟩
  rw [h3]
  have hsum : N + size - 1 = (N - 1) + size := by omega
  rw [hsum, Nat.add_div_right _ (by omega)]
  omega

/-- Witness for `rotating_counter_formula`: with counter size 3, the
fourth lookup wraps back to 1 after a single reset. -/
theorem rotating_counter_formula_witness :
    (lookupN 3 "NIFTY_BUY_CE" (fun _ => 0) 4).1 = some 1 ∧
    (lookupN 3 "NIFTY_BUY_CE" (fun _ => 0) 4).2.1 = 1 := by
  have h := rotating_counter_formula 3 "NIFTY_BUY_CE" (fun _ => 0) 4
    (by decide) (by decide) rfl
  constructor
  · rw [h.1]
  · rw [h.2.2.1]

/-- Successful `update_object` run: when every key of a duplicate-free
update dictionary names an attribute, the call succeeds, and the
resulting object holds exactly the supplied values at the updated keys
and the previous values everywhere else. -/
theorem updateObject_ok {α : Type} :
    ∀ (upd : List (String × α)) (o : String → α),
      (upd.map Prod.fst).Nodup →
      (∀ k ∈ upd.map Prod.fst, k ∈ orderObjFields) →
      ∃ o2, updateObject o upd = .ok o2 ∧
        (∀ kv ∈ upd, o2 kv.1 = kv.2) ∧
        (∀ k, k ∉ upd.map Prod.fst → o2 k = o k) := by
  intro upd
  induction upd with
  | nil =>
    intro o _ _
    exact ⟨o, rfl, by simp, fun _ _ => rfl⟩
  | cons kv rest ih =>
    intro o hnd hall
    obtain ⟨k, v⟩ := kv
    have hk : k ∈ orderObjFields := hall k (by simp)
    rw [List.map_cons, List.nodup_cons] at hnd
    obtain ⟨hknotin, hnd2⟩ := hnd
    have hall2 : ∀ k2 ∈ rest.map Prod.fst, k2 ∈ orderObjFields :=
      fun k2 hk2 => hall k2 (by simp [hk2])
    obtain ⟨o2, heq, hset, hframe⟩ :=
      ih (fun k2 => if k2 = k then v else o k2) hnd2 hall2
    refine ⟨o2, by simp [updateObject, hk, heq], ?_, ?_⟩
    · intro kv2 hkv2
      rcases List.mem_cons.mp hkv2 with heq2 | hmem
      · subst heq2
        have := hframe k hknotin
        simpa using this
      · exact hset kv2 hmem
    · intro k2 hk2
      rw [List.map_cons, List.mem_cons] at hk2
      push_neg at hk2
      rw [hframe k2 hk2.2]
      simp [hk2.1]

/-- Failing `update_object` run: a key that does not name an attribute
makes the call raise. -/
theorem updateObject_error {α : Type} :
    ∀ (upd : List (String × α)) (o : String → α),
      (∃ k ∈ upd.map Prod.fst, k ∉ orderObjFields) →
      ∃ msg, updateObject o upd = .error msg := by
  intro upd
  induction upd with
  | nil =>
    intro o h
    simp at h
  | cons kv rest ih =>
    intro o h
    obtain ⟨k0, v0⟩ := kv
    by_cases hk : k0 ∈ orderObjFields
    · have h2 : ∃ k ∈ rest.map Prod.fst, k ∉ orderObjFields := by
        obtain ⟨k, hmem, hbad⟩ := h
        rw [List.map_cons] at hmem
        rcases List.mem_cons.mp hmem with rfl | hmem2
        · exact absurd hk hbad
        · exact ⟨k, hmem2, hbad⟩
      obtain ⟨msg, hmsg⟩ := ih (fun k2 => if k2 = k0 then v0 else o k2) h2
      exact ⟨msg, by simp [updateObject, hk, hmsg]⟩
    · exact ⟨k0 ++ " is not a valid attribute of OrderObj", by simp [updateObject, hk]⟩

/-- Claim C10: for an update dictionary (duplicate-free keys) all of
whose keys are attribute names of the order, `update_object` sets exactly
those attributes to the given values, leaves every other attribute
unchanged, and hands back the updated order; when some key is not an
attribute name, it raises an AttributeError. -/
theorem update_object_frame {α : Type} (o : String → α) (upd : List (String × α))
    (hnd : (upd.map Prod.fst).Nodup) :
    ((∀ k ∈ upd.map Prod.fst, k ∈ orderObjFields) →
      ∃ o2, updateObject o upd = .ok o2 ∧
        (∀ kv ∈ upd, o2 kv.1 = kv.2) ∧
        (∀ k, k ∉ upd.map Prod.fst → o2 k = o k)) ∧
    ((∃ k ∈ upd.map Prod.fst, k ∉ orderObjFields) →
      ∃ msg, updateObject o upd = .error msg) :=
  ⟨fun hall => updateObject_ok upd o hnd hall,
   fun h => updateObject_error upd o h⟩

/-- Witness for `update_object_frame`: updating the single field
`status` on an order whose attributes all read 0 sets that field and
leaves `index` untouched. -/
theorem update_object_frame_witness :
    ∃ o2, updateObject (fun _ => (0 : Nat)) [("status", 7)] = .ok o2 ∧
      o2 "status" = 7 ∧ o2 "index" = 0 := by
  obtain ⟨o2, heq, hset, hframe⟩ :=
    (update_object_frame (fun _ => (0 : Nat)) [("status", 7)] (by simp)).1 (by decide)
  exact ⟨o2, heq, by simpa using hset ("status", 7) (by simp),
    by simpa using hframe "index" (by decide)⟩

end Stoxxo
